import Mathlib

/-!
Verification of the MusicVisualizer audio-routing and visualization core.

This file gives a shallow embedding of the Python source
(src/handlers/sound_device_handler.py, src/handlers/now_playing_handler.py,
src/main.py) and proves or refutes the specified properties against it.

Conventions of the embedding:
- Python strings are modelled as `String` or `List Char` (the latter where
  character-level slicing matters); `None` is `Option.none`.
- The OS-persisted per-process endpoint table (one entry per role) and the
  input device's property store are modelled as explicit record states.
- A Python function decorated with `contextlib.contextmanager` whose body is
  `setup; yield; cleanup` with no try/finally executes `cleanup` only when the
  `with`-block body completes normally: an exception raised in the body is
  thrown into the generator at the `yield` point and propagates, skipping the
  lines after `yield`.  The run functions below encode exactly that semantics,
  recording the reached state, whether an exception propagated, and how many
  times the cleanup section ran.
- numpy floating-point arithmetic is idealized over `ℚ` (the claims under
  study concern exact zero/ordering facts, not rounding); the discrete Fourier
  transform `np.fft.fft` is idealized as the textbook DFT over `ℂ`.
-/

/-! ### src/handlers/sound_device_handler.py -/

/-- The three OS role contexts (`class ERole(Enum)` in the source). -/
inductive ERole
  | eConsole
  | eMultimedia
  | eCommunications
deriving DecidableEq, Repr

/-- The OS-persisted default-endpoint table for one process: one entry per
role.  `none` models the "system default" answer (the source's
`get_device_for_process` returns `None` when the stored string is empty, and
`set_device_for_process(None)` resets to default). -/
structure AudioState where
  console : Option String
  multimedia : Option String
  communications : Option String
deriving DecidableEq, Repr

/-- Reading the persisted endpoint of one role
(`AudioSessionHandler.get_device_for_process`, specialized to the render
flow used by the program). -/
def get_device_for_process (s : AudioState) : ERole → Option String
  | .eConsole => s.console
  | .eMultimedia => s.multimedia
  | .eCommunications => s.communications

/-- `AudioSessionHandler.set_device_for_process`: loops over the roles in
order 0 (console), 1 (multimedia), 2 (communications), writing `d` for each;
`failAt` models the OS call returning a nonzero HRESULT for a role, at which
point the source raises immediately (`raise Exception(...)`) with no rollback
of the roles already written.  Returns the state reached together with
whether an exception was raised. -/
def set_device_for_process (failAt : ERole → Bool) (d : Option String)
    (s : AudioState) : AudioState × Bool :=
  if failAt .eConsole then (s, true)
  else
    let s1 := { s with console := d }
    if failAt .eMultimedia then (s1, true)
    else
      let s2 := { s1 with multimedia := d }
      if failAt .eCommunications then (s2, true)
      else ({ s2 with communications := d }, false)

/-- The no-failure instantiation: every OS write reports success. -/
def noFail : ERole → Bool := fun _ => false

/-- Failure injection for the scenario "console and multimedia succeed,
communications fails". -/
def failCommunications : ERole → Bool
  | .eCommunications => true
  | _ => false

/-- `set_device_for_process` on the success path (all three roles written). -/
def setAllRoles (d : Option String) (s : AudioState) : AudioState :=
  (set_device_for_process noFail d s).1

/-- Whether the `with`-block body completed normally or raised. -/
inductive BodyOutcome
  | ok
  | raises
deriving DecidableEq, Repr

/-- Result of running the `switch_output_device_for_process` context manager
to completion of its scope: final endpoint table, whether an exception
propagated out, and how many times the post-`yield` restore section ran. -/
structure SwitchRun where
  state : AudioState
  raised : Bool
  restoreRuns : ℕ
deriving DecidableEq, Repr

/-- `switch_output_device_for_process` (a `@contextlib.contextmanager` with a
bare `yield`, no try/finally): saves only the eMultimedia role's current
endpoint, writes `newId` to all three roles, runs the body; the restore
section after `yield` (which writes the saved value back to all three roles)
runs only when the body completes normally. -/
def switch_output_device_for_process (newId : Option String)
    (body : BodyOutcome) (s : AudioState) : SwitchRun :=
  let saved := get_device_for_process s .eMultimedia
  let s1 := setAllRoles newId s
  match body with
  | .ok => { state := setAllRoles saved s1, raised := false, restoreRuns := 1 }
  | .raises => { state := s1, raised := true, restoreRuns := 0 }

/-- `get_stripped_id(long_id)`: the source is
`return long_id and long_id[17:-39]`.  An empty (falsy) string is returned
as-is; otherwise the Python slice keeps the characters with index
`17 <= i < len - 39`, which is empty whenever `len <= 56`. -/
def get_stripped_id (long_id : List Char) : List Char :=
  if long_id = [] then long_id
  else (long_id.drop 17).take (long_id.length - 56)

/-- The input device's property store under the listen-setting GUID:
the boolean checkbox property (pid 1) and the target-device property
(pid 0, `none` modelling `VT_EMPTY`). -/
structure ListenStore where
  checkbox : Bool
  device : Option (List Char)
deriving DecidableEq, Repr

/-- `set_listening_checkbox(property_store, value)`. -/
def set_listening_checkbox (value : Bool) (st : ListenStore) : ListenStore :=
  { st with checkbox := value }

/-- `set_listening_device(property_store, output_device_id)`: a string writes
`VT_LPWSTR`, `None` writes `VT_EMPTY`. -/
def set_listening_device (output_device_id : Option (List Char))
    (st : ListenStore) : ListenStore :=
  { st with device := output_device_id }

/-- `get_stripped_id` applied to an `Optional[str]` argument: Python's
`long_id and ...` short-circuits on `None`. -/
def strippedOpt : Option (List Char) → Option (List Char)
  | none => none
  | some s => some (get_stripped_id s)

/-- Result of running the `listen_to_input_device` context manager to
completion of its scope. -/
structure ListenRun where
  store : ListenStore
  raised : Bool
  clearRuns : ℕ
deriving DecidableEq, Repr

/-- `listen_to_input_device` (a `@contextlib.contextmanager` with a bare
`yield`, no try/finally): sets the checkbox to true and the target-device
property to the stripped output id, runs the body; the clear section after
`yield` (checkbox false, device `VT_EMPTY`) runs only when the body completes
normally. -/
def listen_to_input_device (output_device : Option (List Char))
    (body : BodyOutcome) (st : ListenStore) : ListenRun :=
  let stripped_output_id := strippedOpt output_device
  let st1 := set_listening_device stripped_output_id
    (set_listening_checkbox true st)
  match body with
  | .ok =>
    { store := set_listening_device none (set_listening_checkbox false st1)
      raised := false
      clearRuns := 1 }
  | .raises => { store := st1, raised := true, clearRuns := 0 }

/-! ### src/handlers/now_playing_handler.py -/

/-- Python's substring containment test `needle in hay` on strings: true iff
`needle` occurs contiguously in `hay`.  It is case-sensitive. -/
def substrMatch (needle : List Char) (hay : List Char) : Bool :=
  match hay with
  | [] => needle.isEmpty
  | _ :: rest => needle.isPrefixOf hay || substrMatch needle rest

/-- One entry of a `DeviceInformation` enumeration: display name and id. -/
structure DeviceInfo where
  name : List Char
  id : String
deriving DecidableEq, Repr

/-- `get_device_id_from_name(name)`: scans the AUDIO_RENDER enumeration for
the first device with `name in d.name` (case-sensitive substring), falls back
to the AUDIO_CAPTURE enumeration, and returns `None` when neither matches.
The two enumerations are passed in explicitly here. -/
def get_device_id_from_name (name : List Char)
    (render capture : List DeviceInfo) : Option String :=
  match render.find? (fun d => substrMatch name d.name) with
  | some d => some d.id
  | none => (capture.find? (fun d => substrMatch name d.name)).map DeviceInfo.id

/-- Python's `f".99{n:02}"` two-digit padding for the second/minute fields. -/
def pad2 (n : ℕ) : String :=
  if n < 10 then "0" ++ toString n else toString n

/-- `get_human_timestamp_from_timedelta`: the timedelta is modelled by its
`int(total_seconds())` value.  Python's `//` and `%` on an `int` with these
positive divisors agree with Lean's Euclidean `/` and `%` on `ℤ`; `{n:02}`
pads to two digits and `if hours` tests the int for being nonzero. -/
def get_human_timestamp_from_timedelta (total_seconds : ℤ) : String :=
  let seconds := total_seconds % 60
  let minutes := (total_seconds / 60) % 60
  let hours := (total_seconds / 3600) % 24
  (if hours ≠ 0 then toString hours.toNat ++ ":" ++ pad2 minutes.toNat
   else toString minutes.toNat) ++ ":" ++ pad2 seconds.toNat

/-! ### src/main.py — waveform computation -/

/-- The `k`-th entry of `numpy.fft.fftfreq(n, d)` before division by `n*d`:
indices up to `(n-1)/2` give the nonnegative frequencies `0,1,...`, the rest
the negative frequencies `k - n`. -/
def freqIndex (n k : ℕ) : ℤ :=
  if k ≤ (n - 1) / 2 then (k : ℤ) else (k : ℤ) - (n : ℤ)

/-- `numpy.fft.fftfreq(n, d)` as a list of exact rationals. -/
def fftfreq (n : ℕ) (d : ℚ) : List ℚ :=
  (List.range n).map (fun k => (freqIndex n k : ℚ) / ((n : ℚ) * d))

/-- `np.min` of a buffer (the `[]` case is unreachable for the frame counts
the capture source delivers; numpy raises there). -/
def listMin : List ℚ → ℚ
  | [] => 0
  | x :: xs => xs.foldl min x

/-- `np.max` of a buffer (same remark as `listMin`). -/
def listMax : List ℚ → ℚ
  | [] => 0
  | x :: xs => xs.foldl max x

/-- `xf = fftfreq(frames, 1 / INPUT_SAMPLERATE); xf = xf - np.min(xf)`. -/
def shiftedFreqAxis (frames : ℕ) (sr : ℚ) : List ℚ :=
  let xf := fftfreq frames (1 / sr)
  xf.map (fun x => x - listMin xf)

/-- The normalization denominator `np.max(xf)` used in
`_left_xf = ((xf / np.max(xf)) * (SCREEN_WIDTH / 2))`.  The source applies no
epsilon clamp to it. -/
def waveformDenominator (frames : ℕ) (sr : ℚ) : ℚ :=
  listMax (shiftedFreqAxis frames sr)

/-- `SCREEN_WIDTH = 1920` in the source. -/
def SCREEN_WIDTH : ℚ := 1920

/-- `_left_xf = ((xf / np.max(xf)) * (SCREEN_WIDTH / 2))`, the unsorted left
frequency axis in display coordinates. -/
def unsortedLeftAxis (frames : ℕ) (sr : ℚ) : List ℚ :=
  (shiftedFreqAxis frames sr).map
    (fun x => x / waveformDenominator frames sr * (SCREEN_WIDTH / 2))

/-- The textbook discrete Fourier transform over `ℂ`, idealizing
`numpy.fft.fft`: entry `k` of the transform of the first `n` samples of `x`. -/
noncomputable def dft (x : ℕ → ℂ) (n k : ℕ) : ℂ :=
  ∑ j ∈ Finset.range n,
    x j * Complex.exp (-(2 * Real.pi * Complex.I * (j * k)) / n)

/-- `indices = np.argsort(_left_xf)`: a permutation of `0, ..., len - 1`
listing the positions of `_left_xf` in ascending order of value (realized
here by a sort of the index list keyed by the values; any argsort yields the
same sortedness and pairing facts proved below). -/
def argsort (l : List ℚ) : List ℕ :=
  List.insertionSort (fun i j => l.getD i 0 ≤ l.getD j 0) (List.range l.length)

/-- Fancy indexing `arr[indices]` of numpy, for in-range index lists. -/
def permuteBy (idx : List ℕ) (l : List ℚ) : List ℚ :=
  idx.map (fun i => l.getD i 0)

/-- The four arrays produced by the sorting/mirroring stage of
`generate_waveform_points`. -/
structure WaveAxes where
  left_xf : List ℚ
  right_xf : List ℚ
  left_yf : List ℚ
  right_yf : List ℚ
deriving DecidableEq, Repr

/-- The sorting/mirroring stage of `generate_waveform_points`:
`indices = np.argsort(_left_xf); left_xf = _left_xf[indices];
right_xf = SCREEN_WIDTH - left_xf; left_yf = np.abs(fft(left))[indices];
right_yf = np.abs(fft(right))[indices]`.  The magnitude arrays
`yl0 = np.abs(fft(left_channel))` and `yr0 = np.abs(fft(right_channel))` are
passed in as lists: the properties at stake here concern only how the stage
permutes and mirrors them. -/
def sortAndMirror (axis yl0 yr0 : List ℚ) : WaveAxes :=
  let indices := argsort axis
  let lxf := permuteBy indices axis
  { left_xf := lxf
    right_xf := lxf.map (fun x => SCREEN_WIDTH - x)
    left_yf := permuteBy indices yl0
    right_yf := permuteBy indices yr0 }

/-- The sorting/mirroring stage applied to the axis the source computes from
`frames` and the sample rate. -/
def generate_waveform_sorted (frames : ℕ) (sr : ℚ) (yl0 yr0 : List ℚ) :
    WaveAxes :=
  sortAndMirror (unsortedLeftAxis frames sr) yl0 yr0

/-! ### src/main.py — playback event handler -/

/-- `winrt` `PlaybackStatus` values. -/
inductive PlaybackStatus
  | closed
  | opened
  | changing
  | stopped
  | playing
  | paused
deriving DecidableEq, Repr

/-- The externally visible actions `update_playback_data` can perform:
`pygame.time.set_timer(timer, ms)` (0 cancels the periodic tick) and the
timeline read done by `update_timeline(session)`. -/
inductive TimerAction
  | setTimer (ms : ℕ)
  | readTimeline
deriving DecidableEq, Repr

/-- `update_playback_data(session)` after fetching the playback status: on
PAUSED it cancels the tick timer; on PLAYING it first reads the timeline
(`update_timeline`) and then re-arms the 1000 ms tick, in that order.  The
returned list is the action trace of one handler invocation. -/
def update_playback_data (status : PlaybackStatus) : List TimerAction :=
  (if status = .paused then [TimerAction.setTimer 0] else [])
    ++ (if status = .playing
        then [TimerAction.readTimeline, TimerAction.setTimer 1000] else [])

/-! ### Claims C1 – C5: audio route controller -/

/-- C1: the spec demands that the "end" half of each scoped acquisition runs
exactly once on every exit path, error paths included.  The source's context
managers have no try/finally, so when the `with`-block body raises (the
failing input; e.g. `get_music_session` raising "No music session found"
inside the scope in `main`), the restore/clear sections are skipped: the
process output stays redirected to the new device and the device store is
left with the listening checkbox enabled. -/
theorem C1_cleanup_skipped_when_body_raises :
    (switch_output_device_for_process (some "NEW") .raises
        ⟨some "A", some "B", some "C"⟩).restoreRuns = 0 ∧
    (switch_output_device_for_process (some "NEW") .raises
        ⟨some "A", some "B", some "C"⟩).state =
      ⟨some "NEW", some "NEW", some "NEW"⟩ ∧
    (listen_to_input_device none .raises ⟨false, none⟩).clearRuns = 0 ∧
    (listen_to_input_device none .raises ⟨false, none⟩).store.checkbox = true := by
  decide

/-- C2 counterexample: with pre-call endpoints console = "A", multimedia =
"B", a full successful begin/end of the redirection leaves the console role
reading "B" (the saved multimedia value), not its original pre-call value
"A" — the source saves only the eMultimedia role's endpoint and restores it
to all three roles. -/
theorem C2_counterexample :
    get_device_for_process
        (⟨some "A", some "B", some "C"⟩ : AudioState) .eConsole = some "A" ∧
    get_device_for_process
        (switch_output_device_for_process (some "X") .ok
          ⟨some "A", some "B", some "C"⟩).state .eConsole = some "B" ∧
    (some "B" : Option String) ≠ some "A" := by
  decide

/-- C2 amended: after `begin_redirection(pid, X)` every role reads `X`;
after the matching end (on the normal-completion path), every role reads the
pre-call value of the eMultimedia role — the per-role originals of console
and communications are restored only insofar as they coincided with it. -/
theorem C2_amended (newId : Option String) (s : AudioState) (role : ERole) :
    get_device_for_process (setAllRoles newId s) role = newId ∧
    get_device_for_process
        (switch_output_device_for_process newId .ok s).state role
      = s.multimedia := by
  cases role <;>
    simp [setAllRoles, set_device_for_process, noFail, get_device_for_process,
      switch_output_device_for_process]

/-- C3 counterexample: injecting an OS failure at the communications role
(the spec's own scenario), `set_device_for_process` raises with console and
multimedia already rewritten to the new device "N" — no rollback to the
pre-call values happens before the error propagates. -/
theorem C3_counterexample :
    set_device_for_process failCommunications (some "N")
        ⟨some "c0", some "m0", some "k0"⟩
      = (⟨some "N", some "N", some "k0"⟩, true) ∧
    (some "N" : Option String) ≠ some "c0" := by
  decide

/-- C3 amended: when the endpoint write fails at the communications role,
the operation raises immediately and the roles already written (console and
multimedia) keep the new value; only the not-yet-reached role is unaltered. -/
theorem C3_amended (d : Option String) (s : AudioState) :
    set_device_for_process failCommunications d s
      = (⟨d, d, s.communications⟩, true) := by
  rfl

/-- C4 counterexample: with the input device's store initially having the
listening checkbox enabled and a target device set, begin/end of
listen-through leaves the store cleared (flag false, device empty), not
equal to its pre-call state — the round-trip law fails. -/
theorem C4_counterexample :
    (listen_to_input_device (some ['O', 'U', 'T']) .ok
        ⟨true, some ['D']⟩).store = ⟨false, none⟩ ∧
    (⟨false, none⟩ : ListenStore) ≠ ⟨true, some ['D']⟩ := by
  decide

/-- C4 amended: `begin_listen_through` followed by `end_listen_through` (on
the normal-completion path) always leaves the store with the flag cleared
and the target-device property explicitly unset; this equals the pre-call
state exactly when the store was already cleared before the call. -/
theorem C4_amended (out : Option (List Char)) (st : ListenStore) :
    (listen_to_input_device out .ok st).store = ⟨false, none⟩ ∧
    ((listen_to_input_device out .ok st).store = st ↔ st = ⟨false, none⟩) := by
  refine ⟨rfl, ?_⟩
  constructor
  · intro h
    exact h.symm
  · intro h
    exact h.symm

/-- C5 counterexample: the one-character id "x" is too short to strip, yet
`get_stripped_id` returns the empty string, not the original unchanged. -/
theorem C5_counterexample :
    get_stripped_id ['x'] = [] ∧ (['x'] : List Char) ≠ [] := by
  decide

/-- C5 amended: `get_stripped_id` is pure and total; an id long enough to
strip (a 17-character prefix, a middle, and a 39-character suffix) maps to
its middle, while any id of length at most 56 (too short to strip) maps to
the empty string — not to the original input. -/
theorem C5_amended (p m q s : List Char) (hp : p.length = 17)
    (hq : q.length = 39) (hs : s.length ≤ 56) :
    get_stripped_id (p ++ m ++ q) = m ∧ get_stripped_id s = [] := by
  constructor
  · have hpne : p ≠ [] := by
      intro h
      rw [h] at hp
      simp at hp
    have hne : p ++ m ++ q ≠ [] := by
      intro h
      exact hpne (List.append_eq_nil.mp (List.append_eq_nil.mp h).1).1
    unfold get_stripped_id
    rw [if_neg hne, List.append_assoc, ← hp, List.drop_left]
    have hlen : (p ++ (m ++ q)).length - 56 = m.length := by
      simp [List.length_append, hp, hq]
      omega
    rw [hlen]
    exact List.take_left m q
  · by_cases hs0 : s = []
    · rw [hs0]
      rfl
    · unfold get_stripped_id
      rw [if_neg hs0]
      have h0 : s.length - 56 = 0 := by omega
      rw [h0]
      exact List.take_zero _

/-- Witness for C5 amended: a 57-character id made of a 17-character prefix,
the middle "Z" and a 39-character suffix strips to "Z"; the 1-character id
"s" maps to the empty string. -/
theorem C5_amended_witness :
    (List.replicate 17 'a').length = 17 ∧
    (List.replicate 39 'b').length = 39 ∧
    (['s'] : List Char).length ≤ 56 ∧
    get_stripped_id
        (List.replicate 17 'a' ++ ['Z'] ++ List.replicate 39 'b') = ['Z'] ∧
    get_stripped_id ['s'] = [] := by
  have h := C5_amended (List.replicate 17 'a') ['Z'] (List.replicate 39 'b')
    ['s'] (by decide) (by decide) (by decide)
  exact ⟨by decide, by decide, by decide, h.1, h.2⟩

/-! ### Claim C6: silence and the normalization denominator -/

/-- The seed of a max-fold never exceeds the fold's result. -/
theorem le_foldl_max (l : List ℚ) (b : ℚ) : b ≤ l.foldl max b := by
  induction l generalizing b with
  | nil => exact le_refl b
  | cons x xs ih => exact le_trans (le_max_left b x) (ih (max b x))

/-- Every member of the list is bounded by the max-fold's result. -/
theorem mem_le_foldl_max (l : List ℚ) (b a : ℚ) (h : a ∈ l) :
    a ≤ l.foldl max b := by
  induction l generalizing b with
  | nil => cases h
  | cons x xs ih =>
    rcases List.mem_cons.mp h with h1 | h2
    · rw [h1]
      exact le_trans (le_max_right b x) (le_foldl_max xs (max b x))
    · exact ih (max b x) h2

/-- `np.max` of a buffer bounds each of its entries from above. -/
theorem mem_le_listMax {a : ℚ} {l : List ℚ} (h : a ∈ l) : a ≤ listMax l := by
  cases l with
  | nil => cases h
  | cons x xs =>
    rcases List.mem_cons.mp h with h1 | h2
    · rw [h1]
      exact le_foldl_max xs x
    · exact mem_le_foldl_max xs x a h2

/-- The min-fold's result never exceeds its seed. -/
theorem foldl_min_le (l : List ℚ) (b : ℚ) : l.foldl min b ≤ b := by
  induction l generalizing b with
  | nil => exact le_refl b
  | cons x xs ih => exact le_trans (ih (min b x)) (min_le_left b x)

/-- The min-fold's result bounds every member of the list from below. -/
theorem foldl_min_le_mem (l : List ℚ) (b a : ℚ) (h : a ∈ l) :
    l.foldl min b ≤ a := by
  induction l generalizing b with
  | nil => cases h
  | cons x xs ih =>
    rcases List.mem_cons.mp h with h1 | h2
    · rw [h1]
      exact le_trans (foldl_min_le xs (min b x)) (min_le_right b x)
    · exact ih (min b x) h2

/-- `np.min` of a buffer bounds each of its entries from below. -/
theorem listMin_le_mem {a : ℚ} {l : List ℚ} (h : a ∈ l) : listMin l ≤ a := by
  cases l with
  | nil => cases h
  | cons x xs =>
    rcases List.mem_cons.mp h with h1 | h2
    · rw [h1]
      exact foldl_min_le xs x
    · exact foldl_min_le_mem xs x a h2

/-- C6 counterexample: at frame count 1 the shifted frequency axis is `[0]`,
so the normalization denominator `np.max(xf)` is exactly 0 and
`generate_waveform_points` divides by zero — the source contains no epsilon
clamp, contradicting the claim's "for any frame count, never divides by
zero because the denominator is clamped to a minimum epsilon". -/
theorem C6_counterexample : waveformDenominator 1 44100 = 0 := by
  norm_num [waveformDenominator, shiftedFreqAxis, fftfreq, freqIndex,
    listMin, listMax, List.range_succ]

/-- C6 amended: for an all-zero capture buffer with frame count at least 2,
every DFT magnitude is exactly 0 (below any positive epsilon) and the
normalization denominator is strictly positive, so no division by zero
occurs; the source has no epsilon clamp, and at frame count 1 the
denominator is zero. -/
theorem C6_amended (frames : ℕ) (sr : ℚ) (x : ℕ → ℂ)
    (hf : 2 ≤ frames) (hsr : 0 < sr) (hx : ∀ j, x j = 0) :
    0 < waveformDenominator frames sr ∧
    ∀ k, Complex.abs (dft x frames k) = 0 := by
  constructor
  · set xf := fftfreq frames (1 / sr) with hxf
    set m := listMin xf with hm
    have h0mem : (0 : ℚ) ∈ xf := by
      rw [hxf]
      unfold fftfreq
      refine List.mem_map.mpr ⟨0, List.mem_range.mpr (by omega), ?_⟩
      simp [freqIndex]
    have hv1mem :
        (freqIndex frames 1 : ℚ) / ((frames : ℚ) * (1 / sr)) ∈ xf := by
      rw [hxf]
      unfold fftfreq
      exact List.mem_map.mpr ⟨1, List.mem_range.mpr (by omega), rfl⟩
    set v1 := (freqIndex frames 1 : ℚ) / ((frames : ℚ) * (1 / sr)) with hv1
    have hv1ne : v1 ≠ 0 := by
      have hnum : freqIndex frames 1 ≠ 0 := by
        unfold freqIndex
        by_cases hc : 1 ≤ (frames - 1) / 2
        · rw [if_pos hc]
          decide
        · rw [if_neg hc]
          omega
      have hden : ((frames : ℚ) * (1 / sr)) ≠ 0 := by
        have hfr : (0 : ℚ) < (frames : ℚ) := by
          exact_mod_cast Nat.lt_of_lt_of_le (by omega) hf
        positivity
      rw [hv1]
      exact div_ne_zero (by exact_mod_cast hnum) hden
    have hshift0 : (0 - m) ∈ xf.map (fun y => y - m) :=
      List.mem_map.mpr ⟨0, h0mem, rfl⟩
    have hshiftv1 : (v1 - m) ∈ xf.map (fun y => y - m) :=
      List.mem_map.mpr ⟨v1, hv1mem, rfl⟩
    have hm0 : m ≤ 0 := listMin_le_mem h0mem
    have hmv1 : m ≤ v1 := listMin_le_mem hv1mem
    have hden_eq : waveformDenominator frames sr
        = listMax (xf.map (fun y => y - m)) := by
      rw [hm, hxf]
      rfl
    rw [hden_eq]
    rcases lt_or_gt_of_ne hv1ne with hneg | hpos
    · have h1 : (0 - m) ≤ listMax (xf.map (fun y => y - m)) :=
        mem_le_listMax hshift0
      have h2 : 0 < 0 - m := by
        have : m < 0 := lt_of_le_of_lt hmv1 hneg
        linarith
      linarith
    · have h1 : (v1 - m) ≤ listMax (xf.map (fun y => y - m)) :=
        mem_le_listMax hshiftv1
      have h2 : 0 < v1 - m := by linarith
      linarith
  · intro k
    simp [dft, hx]

/-- Witness for C6 amended: a 2-frame all-zero buffer at 44100 Hz. -/
theorem C6_amended_witness :
    2 ≤ 2 ∧ (0 : ℚ) < 44100 ∧
    (0 < waveformDenominator 2 44100 ∧
      ∀ k, Complex.abs (dft (fun _ => 0) 2 k) = 0) :=
  ⟨by norm_num, by norm_num,
    C6_amended 2 44100 (fun _ => 0) (by norm_num) (by norm_num)
      (fun _ => rfl)⟩

/-! ### Claim C7: device-name lookup -/

/-- C7 counterexample: the fragment "cable" does occur case-insensitively in
the render device name "Cable Output", so the claim predicts its id is
returned; but the source's `name in d.name` test is case-sensitive and the
lookup returns `None`. -/
theorem C7_counterexample :
    get_device_id_from_name ['c', 'a', 'b', 'l', 'e']
        [⟨"Cable Output".data, "dev-render-1"⟩] [] = none ∧
    substrMatch (['c', 'a', 'b', 'l', 'e'].map Char.toLower)
        ("Cable Output".data.map Char.toLower) = true := by
  decide

/-- C7 amended: `get_device_id_from_name` searches the render enumeration
first and consults the capture enumeration only when no render device
matches, the match being a case-SENSITIVE substring test on the display
name; it returns the first match's id and `none` (rather than raising) when
nothing matches. -/
theorem C7_amended (name : List Char) (render capture : List DeviceInfo) :
    (∀ d, render.find? (fun d => substrMatch name d.name) = some d →
      get_device_id_from_name name render capture = some d.id) ∧
    (render.find? (fun d => substrMatch name d.name) = none →
      get_device_id_from_name name render capture
        = (capture.find? (fun d => substrMatch name d.name)).map
            DeviceInfo.id) ∧
    ((∀ d ∈ render, substrMatch name d.name = false) →
      (∀ d ∈ capture, substrMatch name d.name = false) →
      get_device_id_from_name name render capture = none) := by
  refine ⟨?_, ?_, ?_⟩
  · intro d h
    simp [get_device_id_from_name, h]
  · intro h
    simp [get_device_id_from_name, h]
  · intro h1 h2
    have hr : render.find? (fun d => substrMatch name d.name) = none :=
      List.find?_eq_none.mpr (fun x hx => by simp [h1 x hx])
    have hc : capture.find? (fun d => substrMatch name d.name) = none :=
      List.find?_eq_none.mpr (fun x hx => by simp [h2 x hx])
    simp [get_device_id_from_name, hr, hc]

/-- Witness for C7 amended: fragment "USB" matches nothing among a render
list containing only "Speakers" and an empty capture list, and the lookup
returns `none` without raising. -/
theorem C7_amended_witness :
    (∀ d ∈ [DeviceInfo.mk "Speakers".data "spk"],
        substrMatch "USB".data d.name = false) ∧
    (∀ d ∈ ([] : List DeviceInfo), substrMatch "USB".data d.name = false) ∧
    get_device_id_from_name "USB".data
        [DeviceInfo.mk "Speakers".data "spk"] [] = none := by
  have h := (C7_amended "USB".data [DeviceInfo.mk "Speakers".data "spk"] []).2.2
  exact ⟨by decide, by decide, h (by decide) (by decide)⟩

/-! ### Claim C8: the sorting/mirror stage of generate_waveform_points -/

/-- The left axis after applying the argsort permutation is ascending. -/
theorem sorted_permuteBy_argsort (l : List ℚ) :
    List.Sorted (· ≤ ·) (permuteBy (argsort l) l) := by
  have hs : List.Sorted (fun i j => l.getD i 0 ≤ l.getD j 0) (argsort l) := by
    haveI : IsTotal ℕ (fun i j => l.getD i 0 ≤ l.getD j 0) :=
      ⟨fun i j => le_total _ _⟩
    haveI : IsTrans ℕ (fun i j => l.getD i 0 ≤ l.getD j 0) :=
      ⟨fun _ _ _ hab hbc => le_trans hab hbc⟩
    exact List.sorted_insertionSort _ _
  exact List.Pairwise.map (fun i => l.getD i 0) (fun _ _ hab => hab) hs

/-- C8 counterexample: at frame count 4 (sample rate 44100) the sorted left
axis is `[0, 320, 640, 960]` and the mirrored right axis
`SCREEN_WIDTH - left_xf` is `[1920, 1600, 1280, 960]`, which is NOT sorted
ascending — it is the descending mirror of the left axis. -/
theorem C8_counterexample :
    (generate_waveform_sorted 4 44100 [1, 2, 3, 4] [5, 6, 7, 8]).right_xf
      = [1920, 1600, 1280, 960] ∧
    ¬ List.Sorted (· ≤ ·)
        (generate_waveform_sorted 4 44100 [1, 2, 3, 4] [5, 6, 7, 8]).right_xf
      := by
  have haxis : unsortedLeftAxis 4 44100 = [640, 960, 0, 320] := by
    norm_num [unsortedLeftAxis, waveformDenominator, shiftedFreqAxis,
      fftfreq, freqIndex, listMin, listMax, SCREEN_WIDTH, List.range_succ]
  have hsort : argsort [640, 960, 0, 320] = [2, 3, 0, 1] := by
    norm_num [argsort, List.insertionSort, List.orderedInsert,
      List.range_succ]
  have h : (generate_waveform_sorted 4 44100
      [1, 2, 3, 4] [5, 6, 7, 8]).right_xf = [1920, 1600, 1280, 960] := by
    rw [generate_waveform_sorted, haxis]
    rw [sortAndMirror, hsort]
    norm_num [permuteBy, SCREEN_WIDTH]
  refine ⟨h, ?_⟩
  rw [h]
  intro hs
  have h1 := (List.sorted_cons.mp hs).1 1600 (by simp)
  norm_num at h1

/-- C8 amended: the stage applies one single permutation — the argsort of
the unsorted left axis — to the left axis, the left magnitudes, and the
right magnitudes, so each magnitude stays paired with its originating bin;
the permutation is a bijection on positions, the left axis comes out sorted
ascending, and the right axis is its `SCREEN_WIDTH - x` mirror, which comes
out sorted DESCENDING (not ascending). -/
theorem C8_amended (frames : ℕ) (sr : ℚ) (yl0 yr0 : List ℚ) :
    (argsort (unsortedLeftAxis frames sr)).Perm
        (List.range (unsortedLeftAxis frames sr).length) ∧
    (generate_waveform_sorted frames sr yl0 yr0).left_xf
      = permuteBy (argsort (unsortedLeftAxis frames sr))
          (unsortedLeftAxis frames sr) ∧
    (generate_waveform_sorted frames sr yl0 yr0).left_yf
      = permuteBy (argsort (unsortedLeftAxis frames sr)) yl0 ∧
    (generate_waveform_sorted frames sr yl0 yr0).right_yf
      = permuteBy (argsort (unsortedLeftAxis frames sr)) yr0 ∧
    List.Sorted (· ≤ ·)
        (generate_waveform_sorted frames sr yl0 yr0).left_xf ∧
    (generate_waveform_sorted frames sr yl0 yr0).right_xf
      = (generate_waveform_sorted frames sr yl0 yr0).left_xf.map
          (fun v => SCREEN_WIDTH - v) ∧
    List.Sorted (fun a b => b ≤ a)
        (generate_waveform_sorted frames sr yl0 yr0).right_xf := by
  refine ⟨List.perm_insertionSort _ _, rfl, rfl, rfl, ?_, rfl, ?_⟩
  · exact sorted_permuteBy_argsort (unsortedLeftAxis frames sr)
  · have hleft : List.Sorted (· ≤ ·)
        (generate_waveform_sorted frames sr yl0 yr0).left_xf :=
      sorted_permuteBy_argsort (unsortedLeftAxis frames sr)
    exact List.Pairwise.map (fun v => SCREEN_WIDTH - v)
      (fun _ _ hab => sub_le_sub_left hab SCREEN_WIDTH) hleft

/-! ### Claim C9: playback-change handling of the tick timer -/

/-- C9: on a PlaybackChanged event whose fetched status is PAUSED the
handler's only action is cancelling the periodic tick
(`pygame.time.set_timer(timer, 0)`); on PLAYING its action trace is a fresh
timeline read followed — in the same invocation — by re-arming the 1000 ms
tick, in exactly that order. -/
theorem C9_pause_suspends_playing_rearms :
    update_playback_data .paused = [TimerAction.setTimer 0] ∧
    update_playback_data .playing
      = [TimerAction.readTimeline, TimerAction.setTimer 1000] := by
  decide

/-! ### Claim C10: human-readable timestamp formatting -/

/-- C10: the formatter reduces hours modulo 24 and minutes modulo 60 — its
output is invariant under adding 24 hours, and a duration of exactly 24
hours renders identically to zero; when the reduced hours are zero it
renders "M:SS" (minutes unpadded, seconds two-digit), otherwise
"H:MM:SS". -/
theorem C10_timestamp_format (t : ℤ) :
    get_human_timestamp_from_timedelta (t + 24 * 3600)
      = get_human_timestamp_from_timedelta t ∧
    get_human_timestamp_from_timedelta (24 * 3600)
      = get_human_timestamp_from_timedelta 0 ∧
    ((t / 3600) % 24 = 0 →
      get_human_timestamp_from_timedelta t
        = toString ((t / 60) % 60).toNat ++ ":" ++ pad2 (t % 60).toNat) ∧
    ((t / 3600) % 24 ≠ 0 →
      get_human_timestamp_from_timedelta t
        = toString ((t / 3600) % 24).toNat ++ ":"
            ++ pad2 ((t / 60) % 60).toNat ++ ":" ++ pad2 (t % 60).toNat) := by
  refine ⟨?_, by decide, ?_, ?_⟩
  · have hs : (t + 24 * 3600) % 60 = t % 60 := by omega
    have hm : ((t + 24 * 3600) / 60) % 60 = (t / 60) % 60 := by omega
    have hh : ((t + 24 * 3600) / 3600) % 24 = (t / 3600) % 24 := by omega
    simp only [get_human_timestamp_from_timedelta, hs, hm, hh]
  · intro h
    simp [get_human_timestamp_from_timedelta, h]
  · intro h
    simp [get_human_timestamp_from_timedelta, h]

/-- Witness for C10: 59 seconds renders in the "M:SS" shape and 1 h 1 min
1 s renders in the "H:MM:SS" shape. -/
theorem C10_timestamp_format_witness :
    ((59 : ℤ) / 3600) % 24 = 0 ∧
    get_human_timestamp_from_timedelta 59
      = toString (((59 : ℤ) / 60) % 60).toNat ++ ":"
          ++ pad2 ((59 : ℤ) % 60).toNat ∧
    ((3661 : ℤ) / 3600) % 24 ≠ 0 ∧
    get_human_timestamp_from_timedelta 3661
      = toString (((3661 : ℤ) / 3600) % 24).toNat ++ ":"
          ++ pad2 (((3661 : ℤ) / 60) % 60).toNat ++ ":"
          ++ pad2 ((3661 : ℤ) % 60).toNat :=
  ⟨by decide, (C10_timestamp_format 59).2.2.1 (by decide), by decide,
    (C10_timestamp_format 3661).2.2.2 (by decide)⟩
